import Mathlib

/-!
A shallow embedding of `binance_mcp_reference_implementation/binance_mcp_w_resource.py`.

The module exposes four operations over external collaborators:

* `get_symbol_from_name` — pure alias normalization (embedded verbatim);
* `get_price` — one HTTP GET to a spot-price endpoint, modelled by an
  oracle `String → HttpResponse`; the activity-log file is modelled as a
  list of lines threaded through the call; `datetime.now()` is a parameter;
* `get_price_price_change` — one HTTP GET plus `raise_for_status`;
* `get_option_premium` — date parsing, a provider (yfinance) call modelled
  by an oracle that may raise, pandas row filtering and field casting.

Python exceptions are modelled by `Except String`: a `.error` is an
exception propagating to the caller, an `.ok` is a normal return value.
Python floats in the option tables are modelled by `ℚ` and `NaN`/missing
cells by `none`; Python strings are Lean `String`s, with `str.lower` /
`str.upper` modelled on the ASCII range (every comparison the program
performs is against ASCII literals).
-/

deriving instance DecidableEq for Except

namespace BinanceMCP

/-- Python `str.lower()` restricted to the ASCII range, per character. -/
def pyLower (s : String) : String := ⟨s.data.map Char.toLower⟩

/-- Python `str.upper()` restricted to the ASCII range, per character. -/
def pyUpper (s : String) : String := ⟨s.data.map Char.toUpper⟩

/-- `get_symbol_from_name` (source lines 14–20): case-insensitive alias
table, otherwise uppercase passthrough. -/
def get_symbol_from_name (name : String) : String :=
  if pyLower name = "bitcoin" ∨ pyLower name = "btc" then "BTCUSDT"
  else if pyLower name = "ethereum" ∨ pyLower name = "eth" then "ETHUSDT"
  else pyUpper name

/-- One HTTP response as observed by `get_price`: the status code, the
`price` field of the decoded JSON body when present (`response.json()["price"]`
raises a `KeyError` when absent), and the raw text. -/
structure HttpResponse where
  status_code : Nat
  price : Option String
  text : String
deriving DecidableEq

/-- The value `get_price` hands back to the RPC host: either the structured
error dictionary or the human-readable message string. -/
inductive PriceResult where
  | errorDict (msg : String)
  | message (s : String)
deriving DecidableEq

/-- `get_price` (source lines 22–53).  `endpoint` stands for
`requests.get` on the spot-price URL for a given normalized symbol, `now`
for the rendering of `datetime.now()`, and `log` for the current contents
of the activity log (a list of appended lines).

The block after the early `return` on the non-200 path (source lines
40–45: a log write and a `raise`) is unreachable dead code and therefore
has no image in the embedding. -/
def get_price (endpoint : String → HttpResponse) (now : String)
    (log : List String) (symbol : String) :
    Except String (PriceResult × List String) :=
  let sym := get_symbol_from_name symbol
  let response := endpoint sym
  if response.status_code ≠ 200 then
    Except.ok (PriceResult.errorDict
      ("Failed to fetch price for symbol " ++ sym ++ ". Status code: " ++
        toString response.status_code), log)
  else
    match response.price with
    | none => Except.error "KeyError: price"
    | some price =>
        Except.ok (PriceResult.message
          ("The current price of " ++ sym ++ " is " ++ price ++ "."),
          log ++ ["Successfully fetched price for " ++ sym ++ ": " ++ price ++
            ", Current Time: " ++ now ++ "\n"])

/-- One HTTP response as observed by `get_price_price_change`: the status
code and the decoded JSON body, which the operation passes through
verbatim (so its shape is irrelevant and it is kept abstract as a string). -/
structure StatsResponse where
  status_code : Nat
  json : String
deriving DecidableEq

/-- `requests.Response.raise_for_status`: raises `HTTPError` exactly when
the status code is in [400, 600). -/
def raise_for_status (r : StatsResponse) : Except String Unit :=
  if 400 ≤ r.status_code ∧ r.status_code < 600 then
    Except.error ("HTTPError: " ++ toString r.status_code ++ " for url")
  else Except.ok ()

/-- `get_price_price_change` (source lines 56–72): normalize, GET,
`raise_for_status`, return `response.json()` unmodified. -/
def get_price_price_change (endpoint : String → StatsResponse)
    (symbol : String) : Except String String :=
  let sym := get_symbol_from_name symbol
  let response := endpoint sym
  match raise_for_status response with
  | Except.error e => Except.error e
  | Except.ok _ => Except.ok response.json

/-- A calendar date as produced by `datetime.strptime(...).date()`. -/
structure PyDate where
  year : Nat
  month : Nat
  day : Nat
deriving DecidableEq, Repr

/-- Gregorian leap-year rule, as used by `datetime`. -/
def isLeapYear (y : Nat) : Bool := y % 4 = 0 && (y % 100 != 0 || y % 400 = 0)

/-- Number of days of month `m` in year `y`. -/
def daysInMonth (y m : Nat) : Nat :=
  if m = 2 then (if isLeapYear y then 29 else 28)
  else if m = 4 ∨ m = 6 ∨ m = 9 ∨ m = 11 then 30
  else 31

/-- Construction of a `datetime.date`: raises `ValueError` (here: `none`)
unless `MINYEAR ≤ y ≤ MAXYEAR`, `1 ≤ m ≤ 12` and `1 ≤ d ≤ daysInMonth`. -/
def mkDate (y m d : Nat) : Option PyDate :=
  if 1 ≤ y ∧ y ≤ 9999 ∧ 1 ≤ m ∧ m ≤ 12 ∧ 1 ≤ d ∧ d ≤ daysInMonth y m then
    some ⟨y, m, d⟩
  else none

/-- Splitting a character sequence on a separator, with the semantics of
Python `str.split(sep)` for a one-character separator. -/
def splitOnChar (sep : Char) : List Char → List (List Char)
  | [] => [[]]
  | c :: cs =>
    if c = sep then [] :: splitOnChar sep cs
    else
      match splitOnChar sep cs with
      | [] => [[c]]
      | h :: t => (c :: h) :: t

/-- A nonempty all-digit group, read as a decimal number. -/
def digits? (l : List Char) : Option Nat :=
  if l ≠ [] ∧ l.all Char.isDigit then
    some (l.foldl (fun n c => n * 10 + (c.toNat - 48)) 0)
  else none

/-- `datetime.strptime(s, "%m/%d/%Y").date()`.  CPython's `_strptime`
matches `%m` and `%d` as one or two digits (values 1–12 and 1–31), `%Y`
as exactly four digits, requires the whole string to match, and then
`date(y, m, d)` validates the calendar.  Splitting on `/` is equivalent to
the anchored regex because the digit groups cannot contain `/`. -/
def parse_mdy (s : String) : Option PyDate :=
  match splitOnChar '/' s.data with
  | [ms, ds, ys] =>
    match digits? ms, digits? ds, digits? ys with
    | some m, some d, some y =>
      if ms.length ≤ 2 ∧ 1 ≤ m ∧ m ≤ 12 ∧
         ds.length ≤ 2 ∧ 1 ≤ d ∧ d ≤ 31 ∧
         ys.length = 4 then
        mkDate y m d
      else none
    | _, _, _ => none
  | _ => none

/-- `datetime.strptime(s, "%Y-%m-%d").date()`, same conventions as
`parse_mdy`. -/
def parse_ymd (s : String) : Option PyDate :=
  match splitOnChar '-' s.data with
  | [ys, ms, ds] =>
    match digits? ys, digits? ms, digits? ds with
    | some y, some m, some d =>
      if ys.length = 4 ∧
         ms.length ≤ 2 ∧ 1 ≤ m ∧ m ≤ 12 ∧
         ds.length ≤ 2 ∧ 1 ≤ d ∧ d ≤ 31 then
        mkDate y m d
      else none
    | _, _, _ => none
  | _ => none

/-- Zero-padded decimal rendering, as `strftime` pads `%Y`/`%m`/`%d`. -/
def padNat (width n : Nat) : String :=
  let s := toString n
  ⟨List.replicate (width - s.length) '0'⟩ ++ s

/-- `date.strftime("%Y-%m-%d")`. -/
def date_iso (d : PyDate) : String :=
  padNat 4 d.year ++ "-" ++ padNat 2 d.month ++ "-" ++ padNat 2 d.day

/-- The date-parsing step of `get_option_premium` (source lines 111–128):
the inner `try` choosing a format by the presence of `/`, with the
`except ValueError` handler folded into the `Option`. -/
def parseExpiry (expiry_date : String) : Option PyDate :=
  if expiry_date.data.contains '/' then parse_mdy expiry_date
  else parse_ymd expiry_date

/-- One row of an options table (`opt_chain.calls` / `opt_chain.puts`).
Prices are Python floats, modelled by `ℚ`; a cell on which `pd.notna`
is false (`NaN`/missing) is modelled by `none`.  The strike column is
always populated. -/
structure OptionRow where
  strike : ℚ
  lastPrice : Option ℚ
  bid : Option ℚ
  ask : Option ℚ
  volume : Option ℚ
  openInterest : Option ℚ
  impliedVolatility : Option ℚ
deriving DecidableEq

/-- The object returned by `ticker.option_chain(date)`. -/
structure OptionChain where
  calls : List OptionRow
  puts : List OptionRow
deriving DecidableEq

/-- The market-data provider (`yf.Ticker(sym).option_chain(date)`) as an
oracle from the uppercased symbol and the ISO expiry date to either a
chain or a raised exception. -/
abbrev Provider := String → String → Except String OptionChain

/-- Python `int()` applied to a float value: truncation toward zero. -/
def pyInt (q : ℚ) : Int := q.num.tdiv (q.den : Int)

/-- Rendering of a float inside an f-string.  Every property below is
insensitive to the exact decimal rendering, so the embedding prints the
rational directly. -/
def floatRepr (q : ℚ) : String := toString q

/-- The row filter `abs(options_df['strike'] - strike) < 0.01`
(source line 137); the tolerance literal `0.01` is the rational `1/100`. -/
def strikeMatches (strike : ℚ) (r : OptionRow) : Bool :=
  |r.strike - strike| < (1/100 : ℚ)

/-- The stable argsort order on index/row pairs used to model
`(options_df['strike'] - strike).abs().argsort()`: ascending absolute
distance of the strike column to the requested strike, equal distances
kept in original (index) order. -/
def distIdxLE (strike : ℚ) (p q : Nat × OptionRow) : Prop :=
  |p.2.strike - strike| < |q.2.strike - strike| ∨
    (|p.2.strike - strike| = |q.2.strike - strike| ∧ p.1 ≤ q.1)

instance (strike : ℚ) : DecidableRel (distIdxLE strike) := by
  intro p q
  unfold distIdxLE
  infer_instance

/-- `options_df.iloc[(options_df['strike'] - strike).abs().argsort()[:5]]['strike'].tolist()`
(source line 139).  `np.argsort` on the distance column followed by `iloc`
row selection is modelled as a stable sort of the enumerated rows by
distance (equal keys in original order; `numpy` sorts arrays of this size
by insertion sort), then `[:5]` and column extraction. -/
def closest_strikes (options_df : List OptionRow) (strike : ℚ) : List ℚ :=
  (((options_df.enum.insertionSort (distIdxLE strike)).take 5).map
    fun p => p.2.strike)

/-- The result dictionary of a successful `get_option_premium` call
(source lines 153–169), including the conditionally-added `mid_price`. -/
structure OptionContract where
  symbol : String
  strike : ℚ
  expiry_date : String
  option_type : String
  last_price : Option ℚ
  bid : Option ℚ
  ask : Option ℚ
  volume : Int
  open_interest : Int
  implied_volatility : Option ℚ
  mid_price : Option ℚ
deriving DecidableEq

/-- The three shapes of dictionary `get_option_premium` can return: a
plain `{"error": ...}`, the "no option found" dictionary with its extra
context fields, or the contract dictionary. -/
inductive PremiumResult where
  | err (msg : String)
  | notFound (msg : String) (available_strikes_nearby : List ℚ)
      (requested_strike : ℚ) (expiry_date : String) (option_type : String)
  | contract (c : OptionContract)
deriving DecidableEq

/-- Construction of the result dictionary from the selected row
(source lines 153–169): `float(...)`-or-`None` casts, `int(...)`-or-`0`
casts, and `mid_price = (bid + ask) / 2` added exactly when both `bid`
and `ask` are not `None`. -/
def buildContract (symbol : String) (option : OptionRow) (exp_date : PyDate)
    (option_type : String) : OptionContract :=
  { symbol := pyUpper symbol
    strike := option.strike
    expiry_date := date_iso exp_date
    option_type := pyLower option_type
    last_price := option.lastPrice
    bid := option.bid
    ask := option.ask
    volume := match option.volume with | some v => pyInt v | none => 0
    open_interest := match option.openInterest with | some v => pyInt v | none => 0
    implied_volatility := option.impliedVolatility
    mid_price := match option.bid, option.ask with
      | some b, some a => some ((b + a) / 2)
      | _, _ => none }

/-- The body of the outer `try` of `get_option_premium` (source lines
110–171).  The two inner `try`/`except` blocks (date parse, chain fetch)
catch their exceptions locally and return error dictionaries; the only
remaining raise site is the provider oracle itself, whose exception this
body would propagate were it not caught one level up. -/
def option_premium_body (provider : Provider) (symbol : String) (strike : ℚ)
    (expiry_date : String) (option_type : String) :
    Except String PremiumResult :=
  match parseExpiry expiry_date with
  | none =>
      Except.ok (PremiumResult.err
        ("Invalid date format: " ++ expiry_date ++
          ". Use 'YYYY-MM-DD' or 'MM/DD/YYYY'"))
  | some exp_date =>
    match provider (pyUpper symbol) (date_iso exp_date) with
    | Except.error e =>
        Except.ok (PremiumResult.err
          ("Could not fetch options chain: " ++ e ++
            ". Make sure the expiry date is valid and the symbol has options available."))
    | Except.ok opt_chain =>
      let options_df :=
        if pyLower option_type = "call" then opt_chain.calls else opt_chain.puts
      match options_df.filter (strikeMatches strike) with
      | [] =>
          Except.ok (PremiumResult.notFound
            ("No option found with strike " ++ floatRepr strike)
            (closest_strikes options_df strike) strike (date_iso exp_date)
            option_type)
      | option :: _ =>
          Except.ok (PremiumResult.contract
            (buildContract symbol option exp_date option_type))

/-- `get_option_premium` (source lines 90–174): the body above wrapped in
the outer `except Exception` handler.  The Python default for
`option_type` is `"call"`; the embedding passes it explicitly. -/
def get_option_premium (provider : Provider) (symbol : String) (strike : ℚ)
    (expiry_date : String) (option_type : String) :
    Except String PremiumResult :=
  match option_premium_body provider symbol strike expiry_date option_type with
  | Except.error e =>
      Except.ok (PremiumResult.err ("Error fetching option premium: " ++ e))
  | Except.ok r => Except.ok r

/-- Sample rows and providers used to instantiate the theorems below on
concrete inputs. -/
def rowOf (k : ℚ) : OptionRow := ⟨k, none, none, none, none, none, none⟩

/-- A provider answering every query with the calls table of strikes
95, 100, 105 (the table of §8 of the specification). -/
def sampleProvider : Provider := fun _ _ =>
  Except.ok ⟨[rowOf 95, rowOf 100, rowOf 105], []⟩

/-- A provider raising an exception on every query. -/
def errProvider : Provider := fun _ _ => Except.error "boom"

/-- A call row carrying bid and ask. -/
def rowFull : OptionRow :=
  ⟨100, some 5, some (9/2), some (11/2), some 12, some 7, some (1/4)⟩

/-- A provider whose calls table is the single row `rowFull`. -/
def fullProvider : Provider := fun _ _ => Except.ok ⟨[rowFull], []⟩

/-! ## Helper lemmas -/

theorem toNat_ofNat_of_isValid {n : Nat} (h : n.isValidChar) :
    (Char.ofNat n).toNat = n := by
  simp [Char.ofNat, h, Char.ofNatAux, Char.toNat, UInt32.toNat, BitVec.toNat_ofNatLt]

theorem charToLower_toUpper (c : Char) : c.toUpper.toLower = c.toLower := by
  by_cases h : c.toNat ≥ 97 ∧ c.toNat ≤ 122
  · have ht : (Char.ofNat (c.toNat - 32)).toNat = c.toNat - 32 :=
      toNat_ofNat_of_isValid (Or.inl (by omega))
    simp only [Char.toUpper, Char.toLower, if_pos h, ht]
    rw [if_pos (by omega : c.toNat - 32 ≥ 65 ∧ c.toNat - 32 ≤ 90),
      if_neg (by omega : ¬(c.toNat ≥ 65 ∧ c.toNat ≤ 90))]
    rw [(by omega : c.toNat - 32 + 32 = c.toNat), Char.ofNat_toNat]
  · simp only [Char.toUpper, if_neg h]

theorem charToUpper_toUpper (c : Char) : c.toUpper.toUpper = c.toUpper := by
  by_cases h : c.toNat ≥ 97 ∧ c.toNat ≤ 122
  · have ht : (Char.ofNat (c.toNat - 32)).toNat = c.toNat - 32 :=
      toNat_ofNat_of_isValid (Or.inl (by omega))
    simp only [Char.toUpper, if_pos h, ht]
    rw [if_neg (by omega : ¬(c.toNat - 32 ≥ 97 ∧ c.toNat - 32 ≤ 122))]
  · simp only [Char.toUpper, if_neg h]

theorem mapLower_mapUpper (l : List Char) :
    (l.map Char.toUpper).map Char.toLower = l.map Char.toLower := by
  induction l with
  | nil => rfl
  | cons c l ih => simp [charToLower_toUpper, ih]

theorem mapUpper_mapUpper (l : List Char) :
    (l.map Char.toUpper).map Char.toUpper = l.map Char.toUpper := by
  induction l with
  | nil => rfl
  | cons c l ih => simp [charToUpper_toUpper, ih]

theorem pyLower_pyUpper (s : String) : pyLower (pyUpper s) = pyLower s :=
  congrArg String.mk (mapLower_mapUpper s.data)

theorem pyUpper_pyUpper (s : String) : pyUpper (pyUpper s) = pyUpper s :=
  congrArg String.mk (mapUpper_mapUpper s.data)

theorem head?_filter_eq_find? (p : α → Bool) (l : List α) :
    (l.filter p).head? = l.find? p := by
  induction l with
  | nil => rfl
  | cons a l ih => by_cases h : p a <;> simp [List.filter_cons, h, ih]

theorem filter_eq_cons_of_find? {p : α → Bool} {l : List α} {r : α}
    (h : l.find? p = some r) : ∃ t, l.filter p = r :: t := by
  have hh := head?_filter_eq_find? p l
  rw [h] at hh
  cases hf : l.filter p with
  | nil => rw [hf] at hh; simp at hh
  | cons x t =>
    rw [hf] at hh
    simp only [List.head?_cons, Option.some.injEq] at hh
    subst hh
    exact ⟨t, rfl⟩

/-! ## Claims about the symbol normalizer -/

/-- C6: the symbol normalizer maps any casing of "bitcoin"/"btc" to
"BTCUSDT", any casing of "ethereum"/"eth" to "ETHUSDT", and every other
string to its uppercased form verbatim; it is total (a Lean function). -/
theorem get_symbol_from_name_alias_table (s : String) :
    ((pyLower s = "bitcoin" ∨ pyLower s = "btc") →
      get_symbol_from_name s = "BTCUSDT") ∧
    ((pyLower s = "ethereum" ∨ pyLower s = "eth") →
      get_symbol_from_name s = "ETHUSDT") ∧
    (pyLower s ≠ "bitcoin" → pyLower s ≠ "btc" →
      pyLower s ≠ "ethereum" → pyLower s ≠ "eth" →
      get_symbol_from_name s = pyUpper s) := by
  refine ⟨fun h => ?_, fun h => ?_, fun h1 h2 h3 h4 => ?_⟩
  · unfold get_symbol_from_name
    rw [if_pos h]
  · have hne : ¬(pyLower s = "bitcoin" ∨ pyLower s = "btc") := by
      rcases h with h | h <;> rw [h] <;> decide
    unfold get_symbol_from_name
    rw [if_neg hne, if_pos h]
  · unfold get_symbol_from_name
    rw [if_neg (by tauto), if_neg (by tauto)]

/-- Witness for C6 on the spec's concrete examples. -/
theorem get_symbol_from_name_alias_table_witness :
    get_symbol_from_name "Bitcoin" = "BTCUSDT" ∧
    get_symbol_from_name "ETH" = "ETHUSDT" ∧
    get_symbol_from_name "sol" = "SOL" :=
  ⟨(get_symbol_from_name_alias_table "Bitcoin").1 (Or.inl (by decide)),
   (get_symbol_from_name_alias_table "ETH").2.1 (Or.inr (by decide)),
   ((get_symbol_from_name_alias_table "sol").2.2 (by decide) (by decide)
     (by decide) (by decide)).trans (by decide)⟩

/-- C10: the symbol normalizer is idempotent. -/
theorem get_symbol_from_name_idempotent (s : String) :
    get_symbol_from_name (get_symbol_from_name s) = get_symbol_from_name s := by
  by_cases h1 : pyLower s = "bitcoin" ∨ pyLower s = "btc"
  · have hs : get_symbol_from_name s = "BTCUSDT" := by
      unfold get_symbol_from_name; rw [if_pos h1]
    rw [hs]; decide
  by_cases h2 : pyLower s = "ethereum" ∨ pyLower s = "eth"
  · have hs : get_symbol_from_name s = "ETHUSDT" := by
      unfold get_symbol_from_name; rw [if_neg h1, if_pos h2]
    rw [hs]; decide
  · have hs : get_symbol_from_name s = pyUpper s := by
      unfold get_symbol_from_name; rw [if_neg h1, if_neg h2]
    rw [hs]
    unfold get_symbol_from_name
    rw [if_neg (by rw [pyLower_pyUpper]; exact h1),
      if_neg (by rw [pyLower_pyUpper]; exact h2), pyUpper_pyUpper]

/-! ## Claims about the price fetcher -/

/-- C7: on a non-200 status, `get_price` returns the structured error
dictionary naming the normalized symbol and the status code, and the
activity log is unchanged. -/
theorem get_price_error_path (endpoint : String → HttpResponse) (now : String)
    (log : List String) (symbol : String)
    (h : (endpoint (get_symbol_from_name symbol)).status_code ≠ 200) :
    get_price endpoint now log symbol =
      Except.ok (PriceResult.errorDict
        ("Failed to fetch price for symbol " ++ get_symbol_from_name symbol ++
          ". Status code: " ++
          toString (endpoint (get_symbol_from_name symbol)).status_code), log) := by
  simp only [get_price]
  rw [if_pos h]

/-- Witness for C7: a 400 answer for "xyz" yields the error dictionary
mentioning "XYZ" and "400" and leaves the (empty) log untouched. -/
theorem get_price_error_path_witness :
    get_price (fun _ => ⟨400, none, "bad"⟩) "t0" [] "xyz" =
      Except.ok (PriceResult.errorDict
        "Failed to fetch price for symbol XYZ. Status code: 400", []) :=
  (get_price_error_path (fun _ => ⟨400, none, "bad"⟩) "t0" [] "xyz"
    (by decide)).trans (by decide)

/-- C8: on a 200 status with a `price` field, `get_price` appends exactly
one log line (containing the normalized symbol, the price, and the
timestamp) and returns the exact human-readable string. -/
theorem get_price_success_path (endpoint : String → HttpResponse) (now : String)
    (log : List String) (symbol : String) (price : String)
    (h200 : (endpoint (get_symbol_from_name symbol)).status_code = 200)
    (hprice : (endpoint (get_symbol_from_name symbol)).price = some price) :
    get_price endpoint now log symbol =
      Except.ok (PriceResult.message
        ("The current price of " ++ get_symbol_from_name symbol ++ " is " ++
          price ++ "."),
        log ++ ["Successfully fetched price for " ++ get_symbol_from_name symbol ++
          ": " ++ price ++ ", Current Time: " ++ now ++ "\n"]) := by
  simp only [get_price]
  rw [if_neg (by rw [h200]; exact fun hne => hne rfl), hprice]

/-- Witness for C8 on the spec's concrete example: price "65000.12" for
"btc". -/
theorem get_price_success_path_witness :
    get_price (fun _ => ⟨200, some "65000.12", ""⟩) "t1" [] "btc" =
      Except.ok (PriceResult.message "The current price of BTCUSDT is 65000.12.",
        ["Successfully fetched price for BTCUSDT: 65000.12, Current Time: t1\n"]) :=
  (get_price_success_path (fun _ => ⟨200, some "65000.12", ""⟩) "t1" [] "btc"
    "65000.12" (by decide) (by decide)).trans (by decide)

/-- C9: `get_price_price_change` propagates HTTP failures: a status in
[400, 600) aborts the call with the raised `HTTPError` (no structured
error dictionary is synthesized), while a successful status (< 400)
returns the decoded JSON body unmodified. -/
theorem get_price_price_change_raise (endpoint : String → StatsResponse)
    (symbol : String) :
    (400 ≤ (endpoint (get_symbol_from_name symbol)).status_code →
      (endpoint (get_symbol_from_name symbol)).status_code < 600 →
      get_price_price_change endpoint symbol =
        Except.error ("HTTPError: " ++
          toString (endpoint (get_symbol_from_name symbol)).status_code ++
          " for url")) ∧
    ((endpoint (get_symbol_from_name symbol)).status_code < 400 →
      get_price_price_change endpoint symbol =
        Except.ok (endpoint (get_symbol_from_name symbol)).json) := by
  constructor
  · intro h1 h2
    simp only [get_price_price_change, raise_for_status]
    rw [if_pos ⟨h1, h2⟩]
  · intro h
    simp only [get_price_price_change, raise_for_status]
    rw [if_neg (by omega)]

/-- Witness for C9: status 404 aborts with the propagated error, status
200 passes the body through. -/
theorem get_price_price_change_raise_witness :
    get_price_price_change (fun _ => ⟨404, "ignored"⟩) "btc" =
      Except.error "HTTPError: 404 for url" ∧
    get_price_price_change (fun _ => ⟨200, "payload"⟩) "btc" =
      Except.ok "payload" :=
  ⟨((get_price_price_change_raise (fun _ => ⟨404, "ignored"⟩) "btc").1
      (by decide) (by decide)).trans (by decide),
   ((get_price_price_change_raise (fun _ => ⟨200, "payload"⟩) "btc").2
      (by decide)).trans (by decide)⟩

/-! ## Claims about the option premium resolver -/

/-- C1 (amended): `get_option_premium` never propagates an exception: for
every input and every provider behavior the call returns a normal value.
An exception raised by the provider fetch is caught by the inner handler
and surfaces as `{error: "Could not fetch options chain: " + message + ...}`
(not as `"Error fetching option premium: " + message`, which is the outer
handler's wrapping of any exception escaping the rest of the body). -/
theorem get_option_premium_no_exception (provider : Provider) (symbol : String)
    (strike : ℚ) (expiry_date option_type : String) :
    (∃ v, get_option_premium provider symbol strike expiry_date option_type =
      Except.ok v) ∧
    (∀ d e, parseExpiry expiry_date = some d →
      provider (pyUpper symbol) (date_iso d) = Except.error e →
      get_option_premium provider symbol strike expiry_date option_type =
        Except.ok (PremiumResult.err ("Could not fetch options chain: " ++ e ++
          ". Make sure the expiry date is valid and the symbol has options available."))) := by
  constructor
  · cases hb : option_premium_body provider symbol strike expiry_date option_type with
    | error e =>
        exact ⟨PremiumResult.err ("Error fetching option premium: " ++ e),
          by simp [get_option_premium, hb]⟩
    | ok r => exact ⟨r, by simp [get_option_premium, hb]⟩
  · intro d e hd he
    simp [get_option_premium, option_premium_body, hd, he]

/-- Counterexample to C1 as stated: a provider exception "boom" during the
chain fetch is caught, but the returned structured error is the inner
handler's `"Could not fetch options chain: ..."` dictionary, not the
`"Error fetching option premium: " + message` form the claim requires for
every caught exception. -/
theorem get_option_premium_chain_error_shape :
    get_option_premium errProvider "AAPL" 100 "2025-11-07" "call" ≠
      Except.ok (PremiumResult.err ("Error fetching option premium: " ++ "boom")) ∧
    get_option_premium errProvider "AAPL" 100 "2025-11-07" "call" =
      Except.ok (PremiumResult.err
        "Could not fetch options chain: boom. Make sure the expiry date is valid and the symbol has options available.") := by
  constructor
  · decide
  · decide

/-- Witness for C1 (amended) at a concrete failing provider. -/
theorem get_option_premium_no_exception_witness :
    (∃ v, get_option_premium errProvider "AAPL" 100 "2025-11-07" "call" =
      Except.ok v) ∧
    get_option_premium errProvider "AAPL" 100 "2025-11-07" "call" =
      Except.ok (PremiumResult.err
        "Could not fetch options chain: boom. Make sure the expiry date is valid and the symbol has options available.") :=
  ⟨(get_option_premium_no_exception errProvider "AAPL" 100 "2025-11-07" "call").1,
   ((get_option_premium_no_exception errProvider "AAPL" 100 "2025-11-07" "call").2
      ⟨2025, 11, 7⟩ "boom" (by decide) (by decide)).trans (by decide)⟩

/-- C5: the expiry date is parsed as MM/DD/YYYY when the string contains
a slash and as YYYY-MM-DD otherwise; a failed parse returns the invalid-date
error dictionary, with a result independent of the provider (so before any
provider call and without side effects); "2025-11-07" and "11/07/2025"
parse to the same calendar date and the whole call behaves identically on
both spellings. -/
theorem get_option_premium_date_parsing (provider : Provider) (symbol : String)
    (strike : ℚ) (expiry_date option_type : String) :
    (expiry_date.data.contains '/' = true →
      parseExpiry expiry_date = parse_mdy expiry_date) ∧
    (expiry_date.data.contains '/' = false →
      parseExpiry expiry_date = parse_ymd expiry_date) ∧
    (parseExpiry expiry_date = none →
      ∀ provider2 : Provider,
        get_option_premium provider symbol strike expiry_date option_type =
          Except.ok (PremiumResult.err ("Invalid date format: " ++ expiry_date ++
            ". Use 'YYYY-MM-DD' or 'MM/DD/YYYY'")) ∧
        get_option_premium provider symbol strike expiry_date option_type =
          get_option_premium provider2 symbol strike expiry_date option_type) ∧
    (parse_ymd "2025-11-07" = some ⟨2025, 11, 7⟩ ∧
     parse_mdy "11/07/2025" = some ⟨2025, 11, 7⟩ ∧
     get_option_premium provider symbol strike "2025-11-07" option_type =
       get_option_premium provider symbol strike "11/07/2025" option_type) := by
  refine ⟨fun h => ?_, fun h => ?_, fun h provider2 => ⟨?_, ?_⟩, by decide, by decide, ?_⟩
  · unfold parseExpiry; rw [h]; rfl
  · unfold parseExpiry; rw [h]; rfl
  · simp [get_option_premium, option_premium_body, h]
  · simp [get_option_premium, option_premium_body, h]
  · have h1 : parseExpiry "2025-11-07" = some ⟨2025, 11, 7⟩ := by decide
    have h2 : parseExpiry "11/07/2025" = some ⟨2025, 11, 7⟩ := by decide
    simp [get_option_premium, option_premium_body, h1, h2]

/-- Witness for C5: a string of neither format gives the invalid-date
dictionary whoever the provider is, and the two spellings of
2025-11-07 coincide at a concrete provider. -/
theorem get_option_premium_date_parsing_witness :
    (get_option_premium sampleProvider "PLTR" 100 "garbage" "call" =
      Except.ok (PremiumResult.err
        "Invalid date format: garbage. Use 'YYYY-MM-DD' or 'MM/DD/YYYY'")) ∧
    (get_option_premium sampleProvider "PLTR" 100 "garbage" "call" =
      get_option_premium errProvider "PLTR" 100 "garbage" "call") ∧
    (get_option_premium sampleProvider "PLTR" 100 "2025-11-07" "call" =
      get_option_premium sampleProvider "PLTR" 100 "11/07/2025" "call") := by
  refine ⟨?_, ?_, ?_⟩
  · exact (((get_option_premium_date_parsing sampleProvider "PLTR" 100 "garbage"
      "call").2.2.1 (by decide) errProvider).1).trans (by decide)
  · exact ((get_option_premium_date_parsing sampleProvider "PLTR" 100 "garbage"
      "call").2.2.1 (by decide) errProvider).2
  · exact (get_option_premium_date_parsing sampleProvider "PLTR" 100 "x"
      "call").2.2.2.2.2

/-- C2: when some row of the selected table has its strike within the
0.01 tolerance of the requested strike, the returned contract is built
from the first such row in original table order (`List.find?`). -/
theorem get_option_premium_first_match (provider : Provider) (symbol : String)
    (strike : ℚ) (expiry_date option_type : String)
    (d : PyDate) (chain : OptionChain) (r : OptionRow)
    (hd : parseExpiry expiry_date = some d)
    (hp : provider (pyUpper symbol) (date_iso d) = Except.ok chain)
    (hr : (if pyLower option_type = "call" then chain.calls else chain.puts).find?
      (strikeMatches strike) = some r) :
    get_option_premium provider symbol strike expiry_date option_type =
      Except.ok (PremiumResult.contract (buildContract symbol r d option_type)) := by
  obtain ⟨t, hfil⟩ := filter_eq_cons_of_find? hr
  simp [get_option_premium, option_premium_body, hd, hp, hfil]

/-- Witness for C2 on the spec's example: strikes [95, 100, 105] and a
requested strike of 100.005 (the rational 20001/200) match the row with
strike 100, the first in-tolerance row in table order. -/
theorem get_option_premium_first_match_witness :
    get_option_premium sampleProvider "PLTR" (20001/200) "2025-11-07" "call" =
      Except.ok (PremiumResult.contract
        (buildContract "PLTR" (rowOf 100) ⟨2025, 11, 7⟩ "call")) :=
  get_option_premium_first_match sampleProvider "PLTR" (20001/200) "2025-11-07"
    "call" ⟨2025, 11, 7⟩ ⟨[rowOf 95, rowOf 100, rowOf 105], []⟩ (rowOf 100)
    (by decide) rfl (by with_unfolding_all decide)

/-- C4: in any contract returned by `get_option_premium`, `mid_price` is
present exactly when both `bid` and `ask` are present, and then equals
their arithmetic mean. -/
theorem get_option_premium_mid_price (provider : Provider) (symbol : String)
    (strike : ℚ) (expiry_date option_type : String) (c : OptionContract)
    (h : get_option_premium provider symbol strike expiry_date option_type =
      Except.ok (PremiumResult.contract c)) :
    (c.mid_price ≠ none ↔ (c.bid ≠ none ∧ c.ask ≠ none)) ∧
    (∀ b a, c.bid = some b → c.ask = some a →
      c.mid_price = some ((b + a) / 2)) := by
  have hc : ∃ row d, c = buildContract symbol row d option_type := by
    unfold get_option_premium at h
    cases hb : option_premium_body provider symbol strike expiry_date option_type with
    | error e => rw [hb] at h; simp at h
    | ok r =>
      rw [hb] at h
      simp only [Except.ok.injEq] at h
      subst h
      unfold option_premium_body at hb
      cases hd : parseExpiry expiry_date <;> simp only [hd] at hb
      · simp at hb
      case some d =>
        cases hp : provider (pyUpper symbol) (date_iso d) <;> simp only [hp] at hb
        · simp at hb
        case ok chain =>
          cases hf : (if pyLower option_type = "call" then chain.calls
              else chain.puts).filter (strikeMatches strike) <;> simp only [hf] at hb
          · simp at hb
          case cons row t =>
            simp only [Except.ok.injEq, PremiumResult.contract.injEq] at hb
            exact ⟨row, d, hb.symm⟩
  obtain ⟨row, d, hc⟩ := hc
  subst hc
  cases hbid : row.bid <;> cases hask : row.ask <;>
    simp [buildContract, hbid, hask]

/-- Witness for C4 on a table whose only row carries bid 9/2 and ask 11/2:
the returned contract's mid price is present and equals 5. -/
theorem get_option_premium_mid_price_witness :
    ((buildContract "PLTR" rowFull ⟨2025, 11, 7⟩ "call").mid_price ≠ none ↔
      ((buildContract "PLTR" rowFull ⟨2025, 11, 7⟩ "call").bid ≠ none ∧
        (buildContract "PLTR" rowFull ⟨2025, 11, 7⟩ "call").ask ≠ none)) ∧
    (buildContract "PLTR" rowFull ⟨2025, 11, 7⟩ "call").mid_price =
      some ((9/2 + 11/2) / 2) :=
  ⟨(get_option_premium_mid_price fullProvider "PLTR" 100 "2025-11-07" "call"
      (buildContract "PLTR" rowFull ⟨2025, 11, 7⟩ "call")
      (by with_unfolding_all decide)).1,
   (get_option_premium_mid_price fullProvider "PLTR" 100 "2025-11-07" "call"
      (buildContract "PLTR" rowFull ⟨2025, 11, 7⟩ "call")
      (by with_unfolding_all decide)).2 (9/2) (11/2) rfl rfl⟩

theorem distIdxLE_trans (strike : ℚ) (a b c : Nat × OptionRow)
    (hab : distIdxLE strike a b) (hbc : distIdxLE strike b c) :
    distIdxLE strike a c := by
  rcases hab with h1 | ⟨h1, h1'⟩ <;> rcases hbc with h2 | ⟨h2, h2'⟩
  · exact Or.inl (h1.trans h2)
  · exact Or.inl (lt_of_lt_of_le h1 (le_of_eq h2))
  · exact Or.inl (lt_of_le_of_lt (le_of_eq h1) h2)
  · exact Or.inr ⟨h1.trans h2, le_trans h1' h2'⟩

theorem distIdxLE_total (strike : ℚ) (a b : Nat × OptionRow) :
    distIdxLE strike a b ∨ distIdxLE strike b a := by
  rcases lt_trichotomy |a.2.strike - strike| |b.2.strike - strike| with h | h | h
  · exact Or.inl (Or.inl h)
  · rcases Nat.le_total a.1 b.1 with hn | hn
    · exact Or.inl (Or.inr ⟨h, hn⟩)
    · exact Or.inr (Or.inr ⟨h.symm, hn⟩)
  · exact Or.inr (Or.inl h)

/-- The full characterization of `closest_strikes`: it is the strike
column of a block `ps` of (index, row) pairs such that `ps ++ rs` is a
permutation of the enumerated table, `ps` has length `min 5 n`, `ps` is
strictly sorted in the lexicographic (distance, original index) order —
ascending distance, ties by original table order — and every selected
distance is at most every unselected distance. -/
theorem closest_strikes_spec (df : List OptionRow) (strike : ℚ) :
    ∃ ps rs : List (Nat × OptionRow),
      df.enum.Perm (ps ++ rs) ∧
      closest_strikes df strike = (ps.map fun p => p.2.strike) ∧
      ps.length = min 5 df.length ∧
      ps.Pairwise (fun p q =>
        |p.2.strike - strike| < |q.2.strike - strike| ∨
          (|p.2.strike - strike| = |q.2.strike - strike| ∧ p.1 < q.1)) ∧
      (∀ p ∈ ps, ∀ q ∈ rs, |p.2.strike - strike| ≤ |q.2.strike - strike|) := by
  haveI instTot : IsTotal (Nat × OptionRow) (distIdxLE strike) :=
    ⟨distIdxLE_total strike⟩
  haveI instTrans : IsTrans (Nat × OptionRow) (distIdxLE strike) :=
    ⟨distIdxLE_trans strike⟩
  have hperm : (df.enum.insertionSort (distIdxLE strike)).Perm df.enum :=
    List.perm_insertionSort _ _
  have hsorted : (df.enum.insertionSort (distIdxLE strike)).Pairwise (distIdxLE strike) :=
    List.sorted_insertionSort _ _
  have hsub : List.Sublist ((df.enum.insertionSort (distIdxLE strike)).take 5)
      (df.enum.insertionSort (distIdxLE strike)) := List.take_sublist _ _
  refine ⟨(df.enum.insertionSort (distIdxLE strike)).take 5,
    (df.enum.insertionSort (distIdxLE strike)).drop 5, ?_, rfl, ?_, ?_, ?_⟩
  · rw [List.take_append_drop]
    exact hperm.symm
  · rw [List.length_take, List.length_insertionSort, List.enum_length]
  · have hP : ((df.enum.insertionSort (distIdxLE strike)).take 5).Pairwise
        (distIdxLE strike) := hsorted.sublist hsub
    have hnodupAll : ((df.enum.insertionSort (distIdxLE strike)).map Prod.fst).Nodup := by
      have hm : List.Perm ((df.enum.insertionSort (distIdxLE strike)).map Prod.fst)
          (df.enum.map Prod.fst) := hperm.map _
      rw [List.enum_map_fst] at hm
      exact hm.nodup_iff.mpr (List.nodup_range _)
    have hnodupTake : (((df.enum.insertionSort (distIdxLE strike)).take 5).map
        Prod.fst).Nodup := hnodupAll.sublist (hsub.map Prod.fst)
    have hNe : ((df.enum.insertionSort (distIdxLE strike)).take 5).Pairwise
        (fun p q => p.1 ≠ q.1) := by
      rw [List.Nodup, List.pairwise_map] at hnodupTake
      exact hnodupTake
    refine (hP.and hNe).imp ?_
    rintro a b ⟨hr, hne⟩
    rcases hr with h | ⟨heq, hle⟩
    · exact Or.inl h
    · exact Or.inr ⟨heq, lt_of_le_of_ne hle hne⟩
  · intro p hp q hq
    have happ : List.Pairwise (distIdxLE strike)
        ((df.enum.insertionSort (distIdxLE strike)).take 5 ++
          (df.enum.insertionSort (distIdxLE strike)).drop 5) := by
      rw [List.take_append_drop]
      exact hsorted
    rcases (List.pairwise_append.mp happ).2.2 p hp q hq with h | ⟨heq, _⟩
    · exact le_of_lt h
    · exact le_of_eq heq

/-- C3: when no strike is within tolerance, the call returns the
"not found" dictionary whose `available_strikes_nearby` are the (at most
5) strikes of smallest absolute distance to the requested strike, sorted
by ascending distance with ties in original table order, together with
the request parameters.  `np.argsort`'s order on tied keys is not
documented; the embedding fixes the stable order (`numpy` sorts arrays of
these sizes by insertion sort), which is what the tie-breaking clause
asserts. -/
theorem get_option_premium_nearest_strikes (provider : Provider)
    (symbol : String) (strike : ℚ) (expiry_date option_type : String)
    (d : PyDate) (chain : OptionChain) (df : List OptionRow)
    (hd : parseExpiry expiry_date = some d)
    (hp : provider (pyUpper symbol) (date_iso d) = Except.ok chain)
    (hdf : df = if pyLower option_type = "call" then chain.calls else chain.puts)
    (hnone : df.filter (strikeMatches strike) = []) :
    ∃ ps rs : List (Nat × OptionRow),
      df.enum.Perm (ps ++ rs) ∧
      get_option_premium provider symbol strike expiry_date option_type =
        Except.ok (PremiumResult.notFound
          ("No option found with strike " ++ floatRepr strike)
          (ps.map fun p => p.2.strike) strike (date_iso d) option_type) ∧
      ps.length = min 5 df.length ∧
      ps.Pairwise (fun p q =>
        |p.2.strike - strike| < |q.2.strike - strike| ∨
          (|p.2.strike - strike| = |q.2.strike - strike| ∧ p.1 < q.1)) ∧
      (∀ p ∈ ps, ∀ q ∈ rs, |p.2.strike - strike| ≤ |q.2.strike - strike|) := by
  obtain ⟨ps, rs, h1, h2, h3, h4, h5⟩ := closest_strikes_spec df strike
  refine ⟨ps, rs, h1, ?_, h3, h4, h5⟩
  rw [← h2]
  subst hdf
  simp [get_option_premium, option_premium_body, hd, hp, hnone]

/-- Witness for C3 on the spec's example: strikes [95, 100, 105] and a
requested strike of 150 produce `available_strikes_nearby` =
[105, 100, 95] (ascending distance, at most five entries). -/
theorem get_option_premium_nearest_strikes_witness :
    closest_strikes [rowOf 95, rowOf 100, rowOf 105] 150 = [105, 100, 95] ∧
    ∃ ps rs : List (Nat × OptionRow),
      ([rowOf 95, rowOf 100, rowOf 105] : List OptionRow).enum.Perm (ps ++ rs) ∧
      get_option_premium sampleProvider "PLTR" 150 "2025-11-07" "call" =
        Except.ok (PremiumResult.notFound
          ("No option found with strike " ++ floatRepr 150)
          (ps.map fun p => p.2.strike) 150 (date_iso ⟨2025, 11, 7⟩) "call") ∧
      ps.length = min 5 ([rowOf 95, rowOf 100, rowOf 105] : List OptionRow).length ∧
      ps.Pairwise (fun p q =>
        |p.2.strike - 150| < |q.2.strike - 150| ∨
          (|p.2.strike - 150| = |q.2.strike - 150| ∧ p.1 < q.1)) ∧
      (∀ p ∈ ps, ∀ q ∈ rs, |p.2.strike - 150| ≤ |q.2.strike - 150|) :=
  ⟨by with_unfolding_all decide,
   get_option_premium_nearest_strikes sampleProvider "PLTR" 150 "2025-11-07"
     "call" ⟨2025, 11, 7⟩ ⟨[rowOf 95, rowOf 100, rowOf 105], []⟩
     [rowOf 95, rowOf 100, rowOf 105] (by decide) rfl rfl
     (by with_unfolding_all decide)⟩

end BinanceMCP
